import Mathlib

/-! # GTP-U user-plane header (`src/plugins/gtp-up/gtp_up.h`)

A shallow embedding of the declarations of `gtp_up.h` that carry behaviour:
the flag masks of the first tunnel-header octet, the FAR apply-action flags,
the two ACL sentinel address patterns with their recognisers, and the layout
of the tunnel header and of the two tunnel-key structures.

Machine integers are natural numbers; a `u8`, `u16`, `u32` or `u64` value is a
natural number below `2 ^ 8`, `2 ^ 16`, `2 ^ 32` or `2 ^ 64`.  The C operators
`&`, `|`, `^`, `<<` and `>>` are `&&&`, `|||`, `^^^`, `<<<` and `>>>` on `Nat`.
-/

namespace GtpUp

/-! ## Flag masks of the first header octet (`gtp_up.h` lines 75-84) -/

/-- Source: `#define GTPU_VER_MASK (7<<5)` -/
def GTPU_VER_MASK : Nat := 7 <<< 5
/-- Source: `#define GTPU_PT_BIT (1<<4)` -/
def GTPU_PT_BIT : Nat := 1 <<< 4
/-- Source: `#define GTPU_E_BIT (1<<2)` -/
def GTPU_E_BIT : Nat := 1 <<< 2
/-- Source: `#define GTPU_S_BIT (1<<1)` -/
def GTPU_S_BIT : Nat := 1 <<< 1
/-- Source: `#define GTPU_PN_BIT (1<<0)` -/
def GTPU_PN_BIT : Nat := 1 <<< 0
/-- Source: `#define GTPU_E_S_PN_BIT (7<<0)` -/
def GTPU_E_S_PN_BIT : Nat := 7 <<< 0
/-- Source: `#define GTPU_V1_VER (1<<5)` -/
def GTPU_V1_VER : Nat := 1 <<< 5
/-- Source: `#define GTPU_PT_GTP (1<<4)` -/
def GTPU_PT_GTP : Nat := 1 <<< 4
/-- Source: `#define GTPU_TYPE_ERROR_IND 26` -/
def GTPU_TYPE_ERROR_IND : Nat := 26
/-- Source: `#define GTPU_TYPE_END_MARKER 254` -/
def GTPU_TYPE_END_MARKER : Nat := 254
/-- Source: `#define GTPU_TYPE_GTPU 255` -/
def GTPU_TYPE_GTPU : Nat := 255

/-! ## FAR apply-action flags (`gtp_up.h` lines 270-275) -/

/-- Source: `#define FAR_DROP 0x0001` -/
def FAR_DROP : Nat := 0x0001
/-- Source: `#define FAR_FORWARD 0x0002` -/
def FAR_FORWARD : Nat := 0x0002
/-- Source: `#define FAR_BUFFER 0x0004` -/
def FAR_BUFFER : Nat := 0x0004
/-- Source: `#define FAR_NOTIFY_CP 0x0008` -/
def FAR_NOTIFY_CP : Nat := 0x0008
/-- Source: `#define FAR_DUPLICATE 0x0010` -/
def FAR_DUPLICATE : Nat := 0x0010

/-! ## ACL sentinel addresses (`gtp_up.h` lines 150-196) -/

/-- Modelled from the spec: the type `ip46_address_t` of `vnet/ip/ip6_packet.h`,
which is not among the sources, through the member `as_u64[2]` that the sentinel
macros read and write: the two 64-bit words of the 128-bit address. -/
structure ip46_address_t where
  as_u64_0 : Nat
  as_u64_1 : Nat
deriving DecidableEq

/-- Source: `typedef struct { ip46_address_t address; u8 mask; } ipfilter_address_t;` -/
structure ipfilter_address_t where
  address : ip46_address_t
  mask : Nat
deriving DecidableEq

/-- The constant `(u64)~0`. -/
def u64_ones : Nat := 2 ^ 64 - 1
/-- The constant `(u8)~0`. -/
def u8_ones : Nat := 2 ^ 8 - 1

/-- Source: `#define ACL_FROM_ANY (ipfilter_address_t){ .address.as_u64 = {(u64)~0, (u64)~0}, .mask = 0, }` -/
def ACL_FROM_ANY : ipfilter_address_t :=
  { address := { as_u64_0 := u64_ones, as_u64_1 := u64_ones }, mask := 0 }

/-- The macro `acl_is_from_any(ip)`, conjunct by conjunct as written in the
header: `as_u64[0]` is compared twice and `as_u64[1]` is not read. -/
def acl_is_from_any (ip : ipfilter_address_t) : Bool :=
  (ip.address.as_u64_0 == u64_ones) &&
  (ip.address.as_u64_0 == u64_ones) &&
  (ip.mask == 0)

/-- Source: `#define ACL_TO_ASSIGNED (ipfilter_address_t){ .address.as_u64 = {(u64)~0, (u64)~0}, .mask = (u8)~0, }` -/
def ACL_TO_ASSIGNED : ipfilter_address_t :=
  { address := { as_u64_0 := u64_ones, as_u64_1 := u64_ones }, mask := u8_ones }

/-- The macro `acl_is_to_assigned(ip)`, conjunct by conjunct as written in the
header: `as_u64[0]` is compared twice and `as_u64[1]` is not read. -/
def acl_is_to_assigned (ip : ipfilter_address_t) : Bool :=
  (ip.address.as_u64_0 == u64_ones) &&
  (ip.address.as_u64_0 == u64_ones) &&
  (ip.mask == u8_ones)

/-! ## Object layout

The header declares its structures with the typedefs `u8`, `u16`, `u32`, `u64`
and the attribute `CLIB_PACKED` of vppinfra.  Sizes and offsets follow the usual
C rule: a member is placed at the first offset after the previous member that
is a multiple of its alignment, the alignment of an aggregate is the largest
alignment of its members, its size is rounded up to its alignment, and a packed
aggregate gives every member alignment 1. -/

/-- Size and alignment of a C object type, in bytes. -/
structure ctype where
  size : Nat
  align : Nat
deriving DecidableEq

/-- Modelled from the spec: the vppinfra typedef `u8` (the spec's 1-byte fields),
one byte wide, aligned to one byte. -/
def u8 : ctype := ⟨1, 1⟩
/-- Modelled from the spec: the vppinfra typedef `u16` (the spec's 2-byte fields),
naturally aligned. -/
def u16 : ctype := ⟨2, 2⟩
/-- Modelled from the spec: the vppinfra typedef `u32` (the spec's 4-byte fields),
naturally aligned. -/
def u32 : ctype := ⟨4, 4⟩
/-- Modelled from the spec: the vppinfra typedef `u64` (the spec's 64-bit key),
naturally aligned. -/
def u64 : ctype := ⟨8, 8⟩

/-- The first multiple of `a` that is at least `n`. -/
def round_up (n a : Nat) : Nat := (n + a - 1) / a * a

/-- Alignment a member gets inside an aggregate: 1 when the aggregate is
packed, its own otherwise. -/
def member_align (packed : Bool) (t : ctype) : Nat :=
  if packed then 1 else t.align

/-- Offsets of the members of a struct laid out from offset `pos` on. -/
def member_offsets (packed : Bool) : Nat → List ctype → List Nat
  | _, [] => []
  | pos, t :: ts =>
    (round_up pos (member_align packed t)) ::
      member_offsets packed (round_up pos (member_align packed t) + t.size) ts

/-- Offset just past the last member of a struct laid out from `pos` on. -/
def members_end (packed : Bool) : Nat → List ctype → Nat
  | pos, [] => pos
  | pos, t :: ts =>
    members_end packed (round_up pos (member_align packed t) + t.size) ts

/-- Alignment of an aggregate: the largest alignment among its members. -/
def aggregate_align (packed : Bool) (members : List ctype) : Nat :=
  members.foldl (fun a t => max a (member_align packed t)) 1

/-- Layout of `struct { members }`, packed or not. -/
def c_struct (packed : Bool) (members : List ctype) : ctype :=
  ⟨round_up (members_end packed 0 members) (aggregate_align packed members),
    aggregate_align packed members⟩

/-- Layout of `union { members }`: every member at offset 0. -/
def c_union (packed : Bool) (members : List ctype) : ctype :=
  ⟨round_up (members.foldl (fun s t => max s t.size) 0) (aggregate_align packed members),
    aggregate_align packed members⟩

/-- Layout of the array type `t[n]`. -/
def c_array (t : ctype) (n : Nat) : ctype := ⟨t.size * n, t.align⟩

/-- Members of `gtpu_header_t` in declaration order (lines 64-73):
`u8 ver_flags; u8 type; u16 length; u32 teid; u16 sequence; u8 pdu_number;
u8 next_ext_type;`. -/
def gtpu_header_t_members : List ctype := [u8, u8, u16, u32, u16, u8, u8]

/-- Layout of `gtpu_header_t`, a plain (not packed) struct. -/
def gtpu_header_t_layout : ctype := c_struct false gtpu_header_t_members

/-- Offsets of the members of `gtpu_header_t`, in declaration order. -/
def gtpu_header_t_offsets : List Nat := member_offsets false 0 gtpu_header_t_members

/-- Members of the anonymous `struct { u32 dst; u32 teid; }` of
`gtpu4_tunnel_key_t` (lines 123-126). -/
def gtpu4_tunnel_key_t_fields : List ctype := [u32, u32]

/-- Layout of `gtpu4_tunnel_key_t` (lines 116-129): a `CLIB_PACKED` struct whose
only member is the anonymous union of `struct { u32 dst; u32 teid; }` and
`u64 as_u64`. -/
def gtpu4_tunnel_key_t_layout : ctype :=
  c_struct true [c_union false [c_struct false gtpu4_tunnel_key_t_fields, u64]]

/-- Offsets of `dst` and `teid` inside `gtpu4_tunnel_key_t`: the union sits at
its offset in the packed struct, the anonymous struct at offset 0 of the union. -/
def gtpu4_tunnel_key_t_offsets : List Nat :=
  (member_offsets false 0 gtpu4_tunnel_key_t_fields).map
    (fun o => (member_offsets true 0
      [c_union false [c_struct false gtpu4_tunnel_key_t_fields, u64]]).headD 0 + o)

/-- Modelled from the spec: the type `ip6_address_t` of `vnet/ip/ip6_packet.h`,
which is not among the sources; the spec gives its size, 16 bytes, and the
alignment is left as a parameter. -/
def ip6_address_t_layout (align : Nat) : ctype := ⟨16, align⟩

/-- Members of `gtpu6_tunnel_key_t` in declaration order (lines 139-140):
`ip6_address_t dst; u32 teid;`. -/
def gtpu6_tunnel_key_t_members (align : Nat) : List ctype :=
  [ip6_address_t_layout align, u32]

/-- Layout of `gtpu6_tunnel_key_t` (lines 133-141), a `CLIB_PACKED` struct. -/
def gtpu6_tunnel_key_t_layout (align : Nat) : ctype :=
  c_struct true (gtpu6_tunnel_key_t_members align)

/-- Offsets of `dst` and `teid` inside `gtpu6_tunnel_key_t`. -/
def gtpu6_tunnel_key_t_offsets (align : Nat) : List Nat :=
  member_offsets true 0 (gtpu6_tunnel_key_t_members align)

/-- Modelled from the spec: the type `ip4_header_t` of `vnet/ip/ip4_packet.h`,
which is not among the sources; 20 bytes by the comment at line 92, the
alignment left as a parameter. -/
def ip4_header_t_layout (align : Nat) : ctype := ⟨20, align⟩

/-- Modelled from the spec: the type `ip6_header_t` of `vnet/ip/ip6_packet.h`,
which is not among the sources; 40 bytes by the comment at line 101, the
alignment left as a parameter. -/
def ip6_header_t_layout (align : Nat) : ctype := ⟨40, align⟩

/-- Modelled from the spec: the type `udp_header_t` of `vnet/udp/udp_packet.h`,
which is not among the sources; 8 bytes by the comments at lines 93 and 102,
the alignment left as a parameter. -/
def udp_header_t_layout (align : Nat) : ctype := ⟨8, align⟩

/-- Members of `ip4_gtpu_header_t` in declaration order (lines 92-94):
`ip4_header_t ip4; udp_header_t udp; gtpu_header_t gtpu;`. -/
def ip4_gtpu_header_t_members (a_ip a_udp : Nat) : List ctype :=
  [ip4_header_t_layout a_ip, udp_header_t_layout a_udp, gtpu_header_t_layout]

/-- Layout of `ip4_gtpu_header_t` (lines 90-95), a `CLIB_PACKED` struct. -/
def ip4_gtpu_header_t_layout (a_ip a_udp : Nat) : ctype :=
  c_struct true (ip4_gtpu_header_t_members a_ip a_udp)

/-- Offsets of `ip4`, `udp` and `gtpu` inside `ip4_gtpu_header_t`. -/
def ip4_gtpu_header_t_offsets (a_ip a_udp : Nat) : List Nat :=
  member_offsets true 0 (ip4_gtpu_header_t_members a_ip a_udp)

/-- Members of `ip6_gtpu_header_t` in declaration order (lines 101-103):
`ip6_header_t ip6; udp_header_t udp; gtpu_header_t gtpu;`. -/
def ip6_gtpu_header_t_members (a_ip a_udp : Nat) : List ctype :=
  [ip6_header_t_layout a_ip, udp_header_t_layout a_udp, gtpu_header_t_layout]

/-- Layout of `ip6_gtpu_header_t` (lines 99-104), a `CLIB_PACKED` struct. -/
def ip6_gtpu_header_t_layout (a_ip a_udp : Nat) : ctype :=
  c_struct true (ip6_gtpu_header_t_members a_ip a_udp)

/-- Offsets of `ip6`, `udp` and `gtpu` inside `ip6_gtpu_header_t`. -/
def ip6_gtpu_header_t_offsets (a_ip a_udp : Nat) : List Nat :=
  member_offsets true 0 (ip6_gtpu_header_t_members a_ip a_udp)

/-- Modelled from the spec: the key of one entry of `clib_bihash_24_8_t`
(`vppinfra/bihash_24_8.h`, not among the sources), the type of
`v6_tunnel_by_key` at line 445: 24 bytes of key, held as three `u64`. -/
def clib_bihash_24_8_key_layout : ctype := c_array u64 3

/-! ## Objects in memory

An object is the list of its bytes, lowest address first.  A scalar is stored
in the byte order of the host. -/

/-- Byte order of the host. -/
inductive byte_order where
  | little
  | big
deriving DecidableEq

/-- The `n` low bytes of `v`, least significant first. -/
def le_bytes : Nat → Nat → List Nat
  | 0, _ => []
  | n + 1, v => (v % 256) :: le_bytes n (v / 256)

/-- The number written by a list of bytes, least significant first. -/
def le_value : List Nat → Nat
  | [] => 0
  | b :: bs => b + 256 * le_value bs

/-- The `n` bytes an `n`-byte unsigned scalar `v` occupies in memory. -/
def store (o : byte_order) (n v : Nat) : List Nat :=
  match o with
  | .little => le_bytes n v
  | .big => (le_bytes n v).reverse

/-- The unsigned scalar read from the bytes `bs`. -/
def load (o : byte_order) (bs : List Nat) : Nat :=
  match o with
  | .little => le_value bs
  | .big => le_value bs.reverse

/-- The named members of `gtpu4_tunnel_key_t` (lines 123-126): `u32 dst; u32 teid;`. -/
structure gtpu4_tunnel_key_t where
  dst : Nat
  teid : Nat
deriving DecidableEq

/-- Both members of the key are `u32` values. -/
def gtpu4_tunnel_key_t.valid (k : gtpu4_tunnel_key_t) : Prop :=
  k.dst < 2 ^ 32 ∧ k.teid < 2 ^ 32

instance (k : gtpu4_tunnel_key_t) : Decidable k.valid := by
  unfold gtpu4_tunnel_key_t.valid
  infer_instance

/-- The bytes of a `gtpu4_tunnel_key_t`: `dst` then `teid`, as
`struct { u32 dst; u32 teid; }` lays them out. -/
def gtpu4_tunnel_key_t.mem (o : byte_order) (k : gtpu4_tunnel_key_t) : List Nat :=
  store o 4 k.dst ++ store o 4 k.teid

/-- The union member `u64 as_u64` of `gtpu4_tunnel_key_t` (line 127): the same
bytes read as one 64-bit scalar. -/
def gtpu4_tunnel_key_t.as_u64 (o : byte_order) (k : gtpu4_tunnel_key_t) : Nat :=
  load o (k.mem o)

/-- Modelled from the spec: the value of an `ip6_address_t`
(`vnet/ip/ip6_packet.h`, not among the sources), its 16 address bytes. -/
structure ip6_address_t where
  as_u8 : List Nat
deriving DecidableEq

/-- The members of `gtpu6_tunnel_key_t` (lines 139-140): `ip6_address_t dst; u32 teid;`. -/
structure gtpu6_tunnel_key_t where
  dst : ip6_address_t
  teid : Nat
deriving DecidableEq

/-- The address has its 16 bytes and `teid` is a `u32` value. -/
def gtpu6_tunnel_key_t.valid (k : gtpu6_tunnel_key_t) : Prop :=
  k.dst.as_u8.length = 16 ∧ k.teid < 2 ^ 32

instance (k : gtpu6_tunnel_key_t) : Decidable k.valid := by
  unfold gtpu6_tunnel_key_t.valid
  infer_instance

/-- The bytes of a `gtpu6_tunnel_key_t`: the packed struct holds the bytes of
`dst` followed at once by those of `teid`. -/
def gtpu6_tunnel_key_t.mem (o : byte_order) (k : gtpu6_tunnel_key_t) : List Nat :=
  k.dst.as_u8 ++ store o 4 k.teid

/-! ## Tests on flag words -/

/-- The C test `(word & flag) != 0`. -/
def flag_is_set (word flag : Nat) : Bool := (word &&& flag) != 0

/-- The C update `apply_action |= flag` on the `u16` field `apply_action`. -/
def far_set_flag (apply_action flag : Nat) : Nat := (apply_action ||| flag) % 2 ^ 16

/-- The C update `apply_action &= ~flag` on the `u16` field `apply_action`. -/
def far_clear_flag (apply_action flag : Nat) : Nat :=
  apply_action &&& ((2 ^ 16 - 1) ^^^ flag)

/-- The apply-action word with the chosen flags set and no other bit. -/
def far_apply_action (drop forward buffer notify_cp duplicate : Bool) : Nat :=
  (if drop then FAR_DROP else 0) ||| (if forward then FAR_FORWARD else 0) |||
  (if buffer then FAR_BUFFER else 0) ||| (if notify_cp then FAR_NOTIFY_CP else 0) |||
  (if duplicate then FAR_DUPLICATE else 0)

/-- The five apply-action flags, in declaration order. -/
def far_flags : List Nat := [FAR_DROP, FAR_FORWARD, FAR_BUFFER, FAR_NOTIFY_CP, FAR_DUPLICATE]

end GtpUp

/-! # Theorems -/

namespace GtpUp

set_option maxRecDepth 20000

/-! ## Bitwise helpers -/

/-- Masking with `m < 2 ^ k` only reads the low `k` bits. -/
theorem and_mask_mod (b m k : Nat) (h : m < 2 ^ k) : b &&& m = (b % 2 ^ k) &&& m := by
  apply Nat.eq_of_testBit_eq
  intro i
  rw [Nat.testBit_and, Nat.testBit_and, Nat.testBit_mod_two_pow]
  by_cases hi : i < k
  · simp [hi]
  · have hm : m.testBit i = false := by
      apply Nat.testBit_lt_two_pow
      exact Nat.lt_of_lt_of_le h (Nat.pow_le_pow_right (by decide) (Nat.le_of_not_lt hi))
    simp [hm]

/-- The bits of a number below `2 ^ k` are those of a table of `k` entries. -/
theorem testBit_of_lt (m k : Nat) (h : m < 2 ^ k) (i : Nat) (hi : k ≤ i) :
    m.testBit i = false :=
  Nat.testBit_lt_two_pow (Nat.lt_of_lt_of_le h (Nat.pow_le_pow_right (by decide) hi))

/-! ## ACL sentinels -/

/-- What `acl_is_to_assigned` computes: the first address word is all ones and
the mask is `0xFF`; the second address word is not examined. -/
theorem acl_is_to_assigned_iff (ip : ipfilter_address_t) :
    acl_is_to_assigned ip = true ↔ ip.address.as_u64_0 = u64_ones ∧ ip.mask = u8_ones := by
  simp [acl_is_to_assigned]

/-- What `acl_is_from_any` computes: the first address word is all ones and
the mask is 0; the second address word is not examined. -/
theorem acl_is_from_any_iff (ip : ipfilter_address_t) :
    acl_is_from_any ip = true ↔ ip.address.as_u64_0 = u64_ones ∧ ip.mask = 0 := by
  simp [acl_is_from_any]

/-- C1, at the failing input: the address with `as_u64[0]` all ones, `as_u64[1] = 0`
and mask `0xFF` is not `ACL_TO_ASSIGNED` (64 of its 128 address bits are clear),
yet `acl_is_to_assigned` answers true for it. -/
theorem acl_is_to_assigned_accepts_half_set_address :
    acl_is_to_assigned ⟨⟨u64_ones, 0⟩, u8_ones⟩ = true ∧
    (⟨⟨u64_ones, 0⟩, u8_ones⟩ : ipfilter_address_t) ≠ ACL_TO_ASSIGNED ∧
    (⟨⟨u64_ones, 0⟩, u8_ones⟩ : ipfilter_address_t).address.as_u64_1 ≠ u64_ones := by
  decide

/-- C2, at the failing input: the address with `as_u64[0]` all ones, `as_u64[1] = 0`
and mask 0 is not `ACL_FROM_ANY` (64 of its 128 address bits are clear), yet
`acl_is_from_any` answers true for it. -/
theorem acl_is_from_any_accepts_half_set_address :
    acl_is_from_any ⟨⟨u64_ones, 0⟩, 0⟩ = true ∧
    (⟨⟨u64_ones, 0⟩, 0⟩ : ipfilter_address_t) ≠ ACL_FROM_ANY ∧
    (⟨⟨u64_ones, 0⟩, 0⟩ : ipfilter_address_t).address.as_u64_1 ≠ u64_ones := by
  decide

/-! ## Flag masks of the first header octet -/

/-- C4: the masks of the first header octet are as the spec's table says.
`GTPU_VER_MASK` has exactly bits 7-5 set, `GTPU_PT_BIT` exactly bit 4,
`GTPU_E_BIT` exactly bit 2, `GTPU_S_BIT` exactly bit 1 and `GTPU_PN_BIT` exactly
bit 0; the five masks are pairwise disjoint; their union has every bit of the
octet except the spare bit 3; and for every octet `b` (a number reduced modulo
`2 ^ 8`), `(b & GTPU_VER_MASK) == GTPU_V1_VER` holds exactly when the 3-bit
version field `b >> 5` is 1. -/
theorem gtpu_flag_masks_decompose_octet :
    (∀ i, GTPU_VER_MASK.testBit i = decide (5 ≤ i ∧ i ≤ 7)) ∧
    (∀ i, GTPU_PT_BIT.testBit i = decide (i = 4)) ∧
    (∀ i, GTPU_E_BIT.testBit i = decide (i = 2)) ∧
    (∀ i, GTPU_S_BIT.testBit i = decide (i = 1)) ∧
    (∀ i, GTPU_PN_BIT.testBit i = decide (i = 0)) ∧
    [GTPU_VER_MASK, GTPU_PT_BIT, GTPU_E_BIT, GTPU_S_BIT, GTPU_PN_BIT].Pairwise
      (fun m n => m &&& n = 0) ∧
    (∀ i, (GTPU_VER_MASK ||| GTPU_PT_BIT ||| GTPU_E_BIT ||| GTPU_S_BIT |||
        GTPU_PN_BIT).testBit i = decide (i < 8 ∧ i ≠ 3)) ∧
    (∀ b, ((b % 2 ^ 8) &&& GTPU_VER_MASK = GTPU_V1_VER ↔ (b % 2 ^ 8) >>> 5 = 1)) := by
  have bits : ∀ (m : Nat) (p : Nat → Bool), m < 2 ^ 8 →
      (∀ i, i < 8 → m.testBit i = p i) → (∀ i, 8 ≤ i → p i = false) →
      ∀ i, m.testBit i = p i := by
    intro m p hm hlo hhi i
    by_cases hi : i < 8
    · exact hlo i hi
    · rw [testBit_of_lt m 8 hm i (Nat.le_of_not_lt hi), hhi i (Nat.le_of_not_lt hi)]
  refine ⟨?_, ?_, ?_, ?_, ?_, ?_, ?_, ?_⟩
  · exact bits _ (fun i => decide (5 ≤ i ∧ i ≤ 7)) (by decide) (by decide)
      (fun i hi => by simp; omega)
  · exact bits _ (fun i => decide (i = 4)) (by decide) (by decide)
      (fun i hi => by simp; omega)
  · exact bits _ (fun i => decide (i = 2)) (by decide) (by decide)
      (fun i hi => by simp; omega)
  · exact bits _ (fun i => decide (i = 1)) (by decide) (by decide)
      (fun i hi => by simp; omega)
  · exact bits _ (fun i => decide (i = 0)) (by decide) (by decide)
      (fun i hi => by simp; omega)
  · decide
  · exact bits _ (fun i => decide (i < 8 ∧ i ≠ 3)) (by decide) (by decide)
      (fun i hi => by simp; omega)
  · intro b
    have h : ∀ c, c < 2 ^ 8 → (c &&& GTPU_VER_MASK = GTPU_V1_VER ↔ c >>> 5 = 1) := by
      decide
    exact h (b % 2 ^ 8) (Nat.mod_lt _ (by decide))

/-- C5: `GTPU_E_S_PN_BIT` is the union of the three presence bits; for every
flags value `b` the test `(b & GTPU_E_S_PN_BIT) != 0` is true exactly when one
of the tests on `GTPU_E_BIT`, `GTPU_S_BIT`, `GTPU_PN_BIT` is; and flipping any
combination `x` of the version, protocol-type and spare bits of `b` leaves the
test unchanged. -/
theorem gtpu_e_s_pn_bit_is_presence_test :
    GTPU_E_S_PN_BIT = GTPU_E_BIT ||| GTPU_S_BIT ||| GTPU_PN_BIT ∧
    (∀ b, flag_is_set b GTPU_E_S_PN_BIT =
      (flag_is_set b GTPU_E_BIT || flag_is_set b GTPU_S_BIT || flag_is_set b GTPU_PN_BIT)) ∧
    (∀ b x, flag_is_set (b ^^^ (x &&& (GTPU_VER_MASK ||| GTPU_PT_BIT ||| 1 <<< 3)))
      GTPU_E_S_PN_BIT = flag_is_set b GTPU_E_S_PN_BIT) := by
  refine ⟨by decide, ?_, ?_⟩
  · intro b
    have h : ∀ c, c < 2 ^ 3 → flag_is_set c GTPU_E_S_PN_BIT =
        (flag_is_set c GTPU_E_BIT || flag_is_set c GTPU_S_BIT ||
          flag_is_set c GTPU_PN_BIT) := by
      decide
    have hc := h (b % 2 ^ 3) (Nat.mod_lt _ (by decide))
    unfold flag_is_set at hc ⊢
    rw [and_mask_mod b GTPU_E_S_PN_BIT 3 (by decide), and_mask_mod b GTPU_E_BIT 3 (by decide),
      and_mask_mod b GTPU_S_BIT 3 (by decide), and_mask_mod b GTPU_PN_BIT 3 (by decide)]
    exact hc
  · intro b x
    unfold flag_is_set
    have hx : (x &&& (GTPU_VER_MASK ||| GTPU_PT_BIT ||| 1 <<< 3)) &&& GTPU_E_S_PN_BIT = 0 := by
      rw [Nat.and_assoc]
      have : (GTPU_VER_MASK ||| GTPU_PT_BIT ||| 1 <<< 3) &&& GTPU_E_S_PN_BIT = 0 := by decide
      rw [this, Nat.and_zero]
    rw [Nat.and_xor_distrib_right, hx, Nat.xor_zero]

/-! ## FAR apply-action flags -/

/-- Setting one flag leaves the test of a disjoint 16-bit flag unchanged. -/
theorem flag_is_set_far_set_flag (a f g : Nat) (hg : g < 2 ^ 16) (hfg : f &&& g = 0) :
    flag_is_set (far_set_flag a f) g = flag_is_set a g := by
  unfold flag_is_set far_set_flag
  rw [← and_mask_mod (a ||| f) g 16 hg, Nat.and_comm (a ||| f) g,
    Nat.and_or_distrib_left, Nat.and_comm g f, hfg, Nat.or_zero, Nat.and_comm g a]

/-- Clearing one flag leaves the test of a flag inside the kept bits unchanged. -/
theorem flag_is_set_far_clear_flag (a f g : Nat) (hfg : ((2 ^ 16 - 1) ^^^ f) &&& g = g) :
    flag_is_set (far_clear_flag a f) g = flag_is_set a g := by
  unfold flag_is_set far_clear_flag
  rw [Nat.and_assoc, hfg]

/-- C8: the apply-action flags are not exclusive.  `FAR_DROP`, `FAR_FORWARD`,
`FAR_BUFFER`, `FAR_NOTIFY_CP`, `FAR_DUPLICATE` are the single bits 0 to 4, each
below `2 ^ 16` (the `u16` field `apply_action`), pairwise disjoint; for every
choice of the five actions there is a `u16` value on which exactly the chosen
flags test as set; and setting or clearing one flag in any value never changes
the test of another flag. -/
theorem far_apply_action_flags_independent :
    far_flags = [1 <<< 0, 1 <<< 1, 1 <<< 2, 1 <<< 3, 1 <<< 4] ∧
    (∀ f ∈ far_flags, f < 2 ^ 16) ∧
    far_flags.Pairwise (fun f g => f &&& g = 0) ∧
    (∀ d fw bu nc du : Bool, ∃ a, a < 2 ^ 16 ∧
      flag_is_set a FAR_DROP = d ∧ flag_is_set a FAR_FORWARD = fw ∧
      flag_is_set a FAR_BUFFER = bu ∧ flag_is_set a FAR_NOTIFY_CP = nc ∧
      flag_is_set a FAR_DUPLICATE = du) ∧
    (∀ a, ∀ f ∈ far_flags, ∀ g ∈ far_flags, f ≠ g →
      flag_is_set (far_set_flag a f) g = flag_is_set a g ∧
      flag_is_set (far_clear_flag a f) g = flag_is_set a g) := by
  refine ⟨by decide, by decide, by decide, ?_, ?_⟩
  · intro d fw bu nc du
    refine ⟨far_apply_action d fw bu nc du, ?_⟩
    cases d <;> cases fw <;> cases bu <;> cases nc <;> cases du <;> decide
  · intro a f hf g hg hne
    have key : ∀ f ∈ far_flags, ∀ g ∈ far_flags, f ≠ g →
        g < 2 ^ 16 ∧ f &&& g = 0 ∧ ((2 ^ 16 - 1) ^^^ f) &&& g = g := by
      decide
    obtain ⟨h1, h2, h3⟩ := key f hf g hg hne
    exact ⟨flag_is_set_far_set_flag a f g h1 h2, flag_is_set_far_clear_flag a f g h3⟩

/-! ## Scalars in memory -/

/-- An `n`-byte scalar occupies `n` bytes. -/
theorem le_bytes_length (n v : Nat) : (le_bytes n v).length = n := by
  induction n generalizing v with
  | zero => rfl
  | succ n ih => simp [le_bytes, ih]

/-- Every stored byte is below 256. -/
theorem le_bytes_lt (n v : Nat) : ∀ b ∈ le_bytes n v, b < 256 := by
  induction n generalizing v with
  | zero => intro b hb; simp [le_bytes] at hb
  | succ n ih =>
    intro b hb
    simp only [le_bytes, List.mem_cons] at hb
    rcases hb with rfl | hb
    · exact Nat.mod_lt _ (by decide)
    · exact ih _ b hb

/-- Reading back the `n` low bytes of `v` gives `v` modulo `256 ^ n`. -/
theorem le_value_le_bytes (n v : Nat) : le_value (le_bytes n v) = v % 256 ^ n := by
  induction n generalizing v with
  | zero => simp [le_bytes, le_value, Nat.mod_one]
  | succ n ih =>
    simp only [le_bytes, le_value, ih]
    rw [Nat.pow_succ, Nat.mul_comm (256 ^ n) 256, Nat.mod_mul]

/-- Writing the number read from a list of bytes gives the list back. -/
theorem le_bytes_le_value (bs : List Nat) (h : ∀ b ∈ bs, b < 256) :
    le_bytes bs.length (le_value bs) = bs := by
  induction bs with
  | nil => rfl
  | cons b bs ih =>
    have hb : b < 256 := h b (List.mem_cons_self _ _)
    have hbs : ∀ c ∈ bs, c < 256 := fun c hc => h c (List.mem_cons_of_mem _ hc)
    simp only [List.length_cons, le_bytes, le_value]
    have e1 : (b + 256 * le_value bs) % 256 = b := by omega
    have e2 : (b + 256 * le_value bs) / 256 = le_value bs := by omega
    rw [e1, e2, ih hbs]

/-- A list of `n` bytes writes a number below `256 ^ n`. -/
theorem le_value_lt (bs : List Nat) (h : ∀ b ∈ bs, b < 256) :
    le_value bs < 256 ^ bs.length := by
  have e := le_value_le_bytes bs.length (le_value bs)
  rw [le_bytes_le_value bs h] at e
  rw [e]
  exact Nat.mod_lt _ (Nat.pos_pow_of_pos _ (by decide))

/-- A stored `n`-byte scalar occupies `n` bytes. -/
theorem store_length (o : byte_order) (n v : Nat) : (store o n v).length = n := by
  cases o <;> simp [store, le_bytes_length]

/-- Every byte of a stored scalar is below 256. -/
theorem store_lt (o : byte_order) (n v : Nat) : ∀ b ∈ store o n v, b < 256 := by
  cases o
  · exact le_bytes_lt n v
  · intro b hb
    exact le_bytes_lt n v b (by simpa [store] using hb)

/-- Loading a stored `n`-byte scalar gives its value modulo `256 ^ n`. -/
theorem load_store (o : byte_order) (n v : Nat) : load o (store o n v) = v % 256 ^ n := by
  cases o <;> simp [load, store, le_value_le_bytes]

/-- Storing the scalar loaded from a list of bytes gives the list back. -/
theorem store_load (o : byte_order) (bs : List Nat) (h : ∀ b ∈ bs, b < 256) :
    store o bs.length (load o bs) = bs := by
  cases o
  · exact le_bytes_le_value bs h
  · have hr : ∀ b ∈ bs.reverse, b < 256 := fun b hb => h b (List.mem_reverse.mp hb)
    have e := le_bytes_le_value bs.reverse hr
    rw [List.length_reverse] at e
    simp [load, store, e]

/-- The scalar loaded from `n` bytes is below `256 ^ n`. -/
theorem load_lt (o : byte_order) (bs : List Nat) (h : ∀ b ∈ bs, b < 256) :
    load o bs < 256 ^ bs.length := by
  cases o
  · exact le_value_lt bs h
  · have hr : ∀ b ∈ bs.reverse, b < 256 := fun b hb => h b (List.mem_reverse.mp hb)
    have e := le_value_lt bs.reverse hr
    rw [List.length_reverse] at e
    exact e

/-- A `u32` is recovered from its four stored bytes. -/
theorem load_store_u32 (o : byte_order) (v : Nat) (h : v < 2 ^ 32) :
    load o (store o 4 v) = v := by
  rw [load_store]
  exact Nat.mod_eq_of_lt (by simpa using h)

/-- The bytes of an IPv4 tunnel key: eight of them, each below 256. -/
theorem gtpu4_tunnel_key_mem_bytes (o : byte_order) (k : gtpu4_tunnel_key_t) :
    (k.mem o).length = 8 ∧ ∀ b ∈ k.mem o, b < 256 := by
  constructor
  · simp [gtpu4_tunnel_key_t.mem, store_length]
  · intro b hb
    simp only [gtpu4_tunnel_key_t.mem, List.mem_append] at hb
    rcases hb with hb | hb
    · exact store_lt o 4 _ b hb
    · exact store_lt o 4 _ b hb

/-! ## Layout of the tunnel header and of the tunnel keys -/

/-- C3: the layout of `gtpu_header_t` is the wire layout of the tunnel header.
`ver_flags` is at offset 0 (1 byte), `type` at 1 (1 byte), `length` at 2
(2 bytes), `teid` at 4 (4 bytes), `sequence` at 8 (2 bytes), `pdu_number` at 10
(1 byte), `next_ext_type` at 11 (1 byte); the offsets are those of the same
members laid out packed, so there is no padding; and the struct is 12 bytes,
the 8 bytes of the first four members followed by the 4 bytes of the last
three. -/
theorem gtpu_header_t_layout_is_wire_layout :
    gtpu_header_t_members.map ctype.size = [1, 1, 2, 4, 2, 1, 1] ∧
    gtpu_header_t_offsets = [0, 1, 2, 4, 8, 10, 11] ∧
    gtpu_header_t_offsets = member_offsets true 0 gtpu_header_t_members ∧
    gtpu_header_t_layout.size = 12 ∧
    gtpu_header_t_layout.size = (gtpu_header_t_members.map ctype.size).sum ∧
    members_end false 0 (gtpu_header_t_members.take 4) = 8 ∧
    ((gtpu_header_t_members.drop 4).map ctype.size).sum = 4 ∧
    gtpu_header_t_layout.size = 8 + 4 := by
  decide

/-- C6: the IPv4 tunnel key is 8 bytes, `dst` at offset 0 and `teid` at offset 4;
its 64-bit view `as_u64` is a `u64` whose bytes are those of `dst` followed by
those of `teid`, from which `dst` and `teid` are read back; and two keys have
the same `as_u64` exactly when they have the same `dst` and the same `teid`.
This holds in either byte order of the host. -/
theorem gtpu4_tunnel_key_as_u64_injective (o : byte_order) (k1 k2 : gtpu4_tunnel_key_t)
    (h1 : k1.valid) (h2 : k2.valid) :
    gtpu4_tunnel_key_t_layout.size = 8 ∧
    gtpu4_tunnel_key_t_offsets = [0, 4] ∧
    (k1.mem o).length = 8 ∧
    k1.as_u64 o < 2 ^ 64 ∧
    store o 8 (k1.as_u64 o) = store o 4 k1.dst ++ store o 4 k1.teid ∧
    load o ((store o 8 (k1.as_u64 o)).take 4) = k1.dst ∧
    load o ((store o 8 (k1.as_u64 o)).drop 4) = k1.teid ∧
    (k1.as_u64 o = k2.as_u64 o ↔ k1.dst = k2.dst ∧ k1.teid = k2.teid) := by
  have back : ∀ k : gtpu4_tunnel_key_t, store o 8 (k.as_u64 o) = k.mem o := by
    intro k
    have e := store_load o (k.mem o) (gtpu4_tunnel_key_mem_bytes o k).2
    rw [(gtpu4_tunnel_key_mem_bytes o k).1] at e
    exact e
  have hlen : (store o 4 k1.dst).length = 4 := store_length o 4 _
  refine ⟨by decide, by decide, (gtpu4_tunnel_key_mem_bytes o k1).1, ?_, ?_, ?_, ?_, ?_⟩
  · have e := load_lt o (k1.mem o) (gtpu4_tunnel_key_mem_bytes o k1).2
    rw [(gtpu4_tunnel_key_mem_bytes o k1).1] at e
    exact e
  · rw [back k1]; rfl
  · rw [back k1]
    unfold gtpu4_tunnel_key_t.mem
    rw [List.take_left' hlen]
    exact load_store_u32 o _ h1.1
  · rw [back k1]
    unfold gtpu4_tunnel_key_t.mem
    rw [List.drop_left' hlen]
    exact load_store_u32 o _ h1.2
  · constructor
    · intro h
      have hm : k1.mem o = k2.mem o := by rw [← back k1, ← back k2, h]
      unfold gtpu4_tunnel_key_t.mem at hm
      have hlen2 : (store o 4 k1.dst).length = (store o 4 k2.dst).length := by
        rw [store_length, store_length]
      obtain ⟨hd, ht⟩ := List.append_inj hm hlen2
      constructor
      · rw [← load_store_u32 o _ h1.1, ← load_store_u32 o _ h2.1, hd]
      · rw [← load_store_u32 o _ h1.2, ← load_store_u32 o _ h2.2, ht]
    · rintro ⟨hd, ht⟩
      unfold gtpu4_tunnel_key_t.as_u64 gtpu4_tunnel_key_t.mem
      rw [hd, ht]

/-- C6 at a concrete pair of keys: destination 10.0.0.1 with TEIDs 1 and 2, on a
little-endian host. -/
theorem gtpu4_tunnel_key_as_u64_injective_witness :
    (⟨0x0100000a, 1⟩ : gtpu4_tunnel_key_t).valid ∧
    (⟨0x0100000a, 2⟩ : gtpu4_tunnel_key_t).valid ∧
    ((⟨0x0100000a, 1⟩ : gtpu4_tunnel_key_t).as_u64 .little =
        (⟨0x0100000a, 2⟩ : gtpu4_tunnel_key_t).as_u64 .little ↔
      (⟨0x0100000a, 1⟩ : gtpu4_tunnel_key_t).dst = (⟨0x0100000a, 2⟩ : gtpu4_tunnel_key_t).dst ∧
      (⟨0x0100000a, 1⟩ : gtpu4_tunnel_key_t).teid =
        (⟨0x0100000a, 2⟩ : gtpu4_tunnel_key_t).teid) :=
  ⟨by decide, by decide,
    (gtpu4_tunnel_key_as_u64_injective .little ⟨0x0100000a, 1⟩ ⟨0x0100000a, 2⟩
      (by decide) (by decide)).2.2.2.2.2.2.2⟩

/-- C7: the IPv6 tunnel key is packed into 20 bytes, the 16-byte `dst` at
offset 0 and the 4-byte `teid` at offset 16 with no padding (whatever the
alignment of `ip6_address_t`); two keys have the same bytes exactly when they
have the same `dst` and the same `teid`; and the 20 bytes fit the 24-byte key
of the `v6_tunnel_by_key` table. -/
theorem gtpu6_tunnel_key_is_20_packed_bytes (align : Nat) (o : byte_order)
    (k1 k2 : gtpu6_tunnel_key_t) (h1 : k1.valid) (h2 : k2.valid) :
    (gtpu6_tunnel_key_t_layout align).size = 20 ∧
    gtpu6_tunnel_key_t_offsets align = [0, 16] ∧
    ((gtpu6_tunnel_key_t_members align).map ctype.size).sum = 20 ∧
    (k1.mem o).length = 20 ∧
    (k1.mem o = k2.mem o ↔ k1.dst = k2.dst ∧ k1.teid = k2.teid) ∧
    clib_bihash_24_8_key_layout.size = 24 ∧
    (gtpu6_tunnel_key_t_layout align).size ≤ clib_bihash_24_8_key_layout.size := by
  have hsize : (gtpu6_tunnel_key_t_layout align).size = 20 := by
    simp [gtpu6_tunnel_key_t_layout, gtpu6_tunnel_key_t_members, c_struct, members_end,
      member_align, aggregate_align, round_up, ip6_address_t_layout, u32]
  have hoff : gtpu6_tunnel_key_t_offsets align = [0, 16] := by
    simp [gtpu6_tunnel_key_t_offsets, gtpu6_tunnel_key_t_members, member_offsets,
      member_align, round_up, ip6_address_t_layout]
  have hsum : ((gtpu6_tunnel_key_t_members align).map ctype.size).sum = 20 := by
    simp [gtpu6_tunnel_key_t_members, ip6_address_t_layout, u32]
  have hkey : clib_bihash_24_8_key_layout.size = 24 := by decide
  refine ⟨hsize, hoff, hsum, ?_, ?_, hkey, by rw [hsize, hkey]; decide⟩
  · simp [gtpu6_tunnel_key_t.mem, store_length, h1.1]
  · constructor
    · intro hm
      unfold gtpu6_tunnel_key_t.mem at hm
      obtain ⟨hd, ht⟩ := List.append_inj hm (by rw [h1.1, h2.1])
      constructor
      · cases hx : k1.dst; cases hy : k2.dst
        rw [hx, hy] at hd
        simpa using hd
      · rw [← load_store_u32 o _ h1.2, ← load_store_u32 o _ h2.2, ht]
    · rintro ⟨hd, ht⟩
      unfold gtpu6_tunnel_key_t.mem
      rw [hd, ht]

/-- C7 at a concrete pair of keys: destination `::1` with TEIDs 1 and 2, on a
little-endian host, `ip6_address_t` aligned to 8 bytes. -/
theorem gtpu6_tunnel_key_is_20_packed_bytes_witness :
    (⟨⟨[0, 0, 0, 0, 0, 0, 0, 0, 0, 0, 0, 0, 0, 0, 0, 1]⟩, 1⟩ : gtpu6_tunnel_key_t).valid ∧
    (⟨⟨[0, 0, 0, 0, 0, 0, 0, 0, 0, 0, 0, 0, 0, 0, 0, 1]⟩, 2⟩ : gtpu6_tunnel_key_t).valid ∧
    (gtpu6_tunnel_key_t_layout 8).size = 20 ∧
    ((⟨⟨[0, 0, 0, 0, 0, 0, 0, 0, 0, 0, 0, 0, 0, 0, 0, 1]⟩, 1⟩ : gtpu6_tunnel_key_t).mem
      .little).length = 20 :=
  ⟨by decide, by decide,
    (gtpu6_tunnel_key_is_20_packed_bytes 8 .little
      ⟨⟨[0, 0, 0, 0, 0, 0, 0, 0, 0, 0, 0, 0, 0, 0, 0, 1]⟩, 1⟩
      ⟨⟨[0, 0, 0, 0, 0, 0, 0, 0, 0, 0, 0, 0, 0, 0, 0, 1]⟩, 2⟩
      (by decide) (by decide)).1,
    (gtpu6_tunnel_key_is_20_packed_bytes 8 .little
      ⟨⟨[0, 0, 0, 0, 0, 0, 0, 0, 0, 0, 0, 0, 0, 0, 0, 1]⟩, 1⟩
      ⟨⟨[0, 0, 0, 0, 0, 0, 0, 0, 0, 0, 0, 0, 0, 0, 0, 1]⟩, 2⟩
      (by decide) (by decide)).2.2.2.1⟩

/-! ## Encapsulation header templates -/

/-- The size of `gtpu_header_t`, unfolded. -/
theorem gtpu_header_t_layout_eq : gtpu_header_t_layout = ⟨12, 4⟩ := by
  decide

/-- C9, at the declarations as written: the comments on the `gtpu` member of
both templates (lines 94 and 103) say 8 bytes, yet with `ip4_header_t` and
`ip6_header_t` aligned to 4 bytes and `udp_header_t` to 2 the member is the
12-byte `gtpu_header_t`, not 8 bytes, `ip4_gtpu_header_t` is 40 bytes, not 36,
and `ip6_gtpu_header_t` is 60 bytes, not 56. -/
theorem gtpu_member_of_templates_is_not_8_bytes :
    gtpu_header_t_layout.size = 12 ∧
    gtpu_header_t_layout.size ≠ 8 ∧
    (ip4_gtpu_header_t_layout 4 2).size = 40 ∧
    (ip4_gtpu_header_t_layout 4 2).size ≠ 36 ∧
    (ip6_gtpu_header_t_layout 4 2).size = 60 ∧
    (ip6_gtpu_header_t_layout 4 2).size ≠ 56 := by
  decide

/-- What the two template declarations lay out, whatever the alignments of the
IP and UDP header types: the `gtpu` member is the whole 12-byte `gtpu_header_t`
(its 8 fixed bytes and the 4-byte optional block), at offset 28 of the 40-byte
`ip4_gtpu_header_t` and at offset 48 of the 60-byte `ip6_gtpu_header_t`; the
sizes 36 and 56 of the comments are the offsets at which the optional block of
`gtpu` starts. -/
theorem gtpu_member_of_templates_is_12_bytes (a_ip a_udp : Nat) :
    gtpu_header_t_layout.size = 12 ∧
    members_end false 0 (gtpu_header_t_members.take 4) = 8 ∧
    ip4_gtpu_header_t_offsets a_ip a_udp = [0, 20, 28] ∧
    (ip4_gtpu_header_t_layout a_ip a_udp).size = 20 + 8 + 12 ∧
    (ip4_gtpu_header_t_layout a_ip a_udp).size = 40 ∧
    ip6_gtpu_header_t_offsets a_ip a_udp = [0, 40, 48] ∧
    (ip6_gtpu_header_t_layout a_ip a_udp).size = 40 + 8 + 12 ∧
    (ip6_gtpu_header_t_layout a_ip a_udp).size = 60 ∧
    28 + members_end false 0 (gtpu_header_t_members.take 4) = 36 ∧
    48 + members_end false 0 (gtpu_header_t_members.take 4) = 56 := by
  have h4 : (ip4_gtpu_header_t_layout a_ip a_udp).size = 40 := by
    simp [ip4_gtpu_header_t_layout, ip4_gtpu_header_t_members, c_struct, members_end,
      member_align, aggregate_align, round_up, ip4_header_t_layout, udp_header_t_layout,
      gtpu_header_t_layout_eq]
  have h6 : (ip6_gtpu_header_t_layout a_ip a_udp).size = 60 := by
    simp [ip6_gtpu_header_t_layout, ip6_gtpu_header_t_members, c_struct, members_end,
      member_align, aggregate_align, round_up, ip6_header_t_layout, udp_header_t_layout,
      gtpu_header_t_layout_eq]
  refine ⟨by decide, by decide, ?_, h4, h4, ?_, h6, h6, by decide, by decide⟩
  · simp [ip4_gtpu_header_t_offsets, ip4_gtpu_header_t_members, member_offsets,
      member_align, round_up, ip4_header_t_layout, udp_header_t_layout]
  · simp [ip6_gtpu_header_t_offsets, ip6_gtpu_header_t_members, member_offsets,
      member_align, round_up, ip6_header_t_layout, udp_header_t_layout]

/-! ## The two sentinels together -/

/-- C10: the two filter-address sentinels are recognised and never confused.
`acl_is_from_any (ACL_FROM_ANY)` and `acl_is_to_assigned (ACL_TO_ASSIGNED)` are
true, no address passes both tests, and each test rejects the other sentinel. -/
theorem acl_sentinels_recognised_and_exclusive :
    acl_is_from_any ACL_FROM_ANY = true ∧
    acl_is_to_assigned ACL_TO_ASSIGNED = true ∧
    (∀ ip, ¬ (acl_is_from_any ip = true ∧ acl_is_to_assigned ip = true)) ∧
    acl_is_from_any ACL_TO_ASSIGNED = false ∧
    acl_is_to_assigned ACL_FROM_ANY = false := by
  refine ⟨by decide, by decide, ?_, by decide, by decide⟩
  rintro ip ⟨h1, h2⟩
  rw [acl_is_from_any_iff] at h1
  rw [acl_is_to_assigned_iff] at h2
  have h : (0 : Nat) = u8_ones := h1.2.symm.trans h2.2
  exact absurd h (by decide)

end GtpUp
